import Mathlib

/-!
Shallow embedding of the request-dispatch and resilience core of the
Teg AI lawyer web client, translated from `src/frontend/script.js`
(the Client Dispatcher: `apiFetch`, `checkServerReady`, `sendMessage`,
the preset answer table) and `src/frontend/api/[...path].js`
(the Edge Relay `handler`), together with theorems settling the
specification claims about them.

Network I/O is modelled by an explicit transport oracle; DOM and timer
side effects are modelled as an event trace.
-/

set_option autoImplicit false

namespace KazBot

/-! ## Characters and string helpers -/

/-- The opening brace character, via its code point. -/
def lbraceChar : Char := Char.ofNat 123

/-- The closing brace character, via its code point. -/
def rbraceChar : Char := Char.ofNat 125

/-- The double-quote character. -/
def quoteChar : Char := '"'

/-- The backslash character. -/
def backslashChar : Char := '\\'

/-- Whitespace recognized by the `String.prototype.trim` model. -/
def isWsChar (c : Char) : Bool :=
  c = ' ' || c = '\n' || c = '\t' || c = '\r'

/-- Drops leading whitespace from a character list. -/
def dropWsLeft : List Char → List Char
  | [] => []
  | c :: cs => if isWsChar c then dropWsLeft cs else c :: cs

/-- Model of the JavaScript `String.prototype.trim` builtin: strips
leading and trailing whitespace. -/
def jsTrim (s : String) : String :=
  String.mk (dropWsLeft (dropWsLeft s.toList.reverse).reverse)

/-- Whether `pat` is a prefix of the character list `s`. -/
def hasPrefixCL : List Char → List Char → Bool
  | [], _ => true
  | _ :: _, [] => false
  | p :: ps, c :: cs => p == c && hasPrefixCL ps cs

/-- Whether `pat` occurs as a contiguous run inside the character list. -/
def hasInfixCL (pat : List Char) : List Char → Bool
  | [] => pat.isEmpty
  | c :: cs => hasPrefixCL pat (c :: cs) || hasInfixCL pat cs

/-- Model of the JavaScript `String.prototype.includes` substring test
(used by the dispatcher as `ct.includes("application/json")`). -/
def strIncludes (s pat : String) : Bool :=
  hasInfixCL pat.toList s.toList

/-! ## JSON values and a model of the `JSON.parse` builtin

`JSON.parse` and `JSON.stringify` are platform builtins, not code of this
repository.  `Json` and `jsonParse` model the builtin parser: a recursive
descent over the character list with fuel.  The model is faithful on the
points the dispatcher's behaviour depends on: the empty (or all-whitespace)
string is rejected, exactly as `JSON.parse("")` throws a `SyntaxError`,
and well-formed object/array/scalar syntax yields the corresponding value.
Simplifications that no claim depends on: `\u` escapes keep the escaped
character verbatim, and the fractional or exponent part of a number is
consumed but discarded. -/

inductive Json where
  | null
  | bool (b : Bool)
  | num (n : Int)
  | str (s : String)
  | arr (xs : List Json)
  | obj (fields : List (String × Json))

/-- Whitespace skipping for the JSON parser model. -/
def skipWs : List Char → List Char
  | [] => []
  | c :: cs =>
    if c = ' ' || c = '\n' || c = '\t' || c = '\r' then skipWs cs else c :: cs

/-- Translation of a JSON escape character. -/
def unescapeChar (c : Char) : Char :=
  if c = 'n' then '\n'
  else if c = 't' then '\t'
  else if c = 'r' then '\r'
  else c

/-- Parses the remaining characters of a JSON string literal (after the
opening quote), returning the string contents and the rest of the input. -/
def parseStrChars : List Char → Option (List Char × List Char)
  | [] => none
  | c :: cs =>
    if c = quoteChar then some ([], cs)
    else if c = backslashChar then
      match cs with
      | [] => none
      | e :: cs2 =>
        match parseStrChars cs2 with
        | some (acc, rest) => some (unescapeChar e :: acc, rest)
        | none => none
    else
      match parseStrChars cs with
      | some (acc, rest) => some (c :: acc, rest)
      | none => none

/-- Splits a leading run of decimal digits from the input. -/
def parseDigits : List Char → List Char × List Char
  | [] => ([], [])
  | c :: cs =>
    if c.isDigit then
      let (ds, rest) := parseDigits cs
      (c :: ds, rest)
    else ([], c :: cs)

/-- Numeric value of a digit run. -/
def digitsToNat (ds : List Char) : Nat :=
  ds.foldl (fun a c => a * 10 + (c.toNat - 48)) 0

/-- Consumes an optional fractional part and exponent of a JSON number
(the model keeps only the integer part; no claim inspects numbers). -/
def skipNumTail (cs : List Char) : List Char :=
  let afterFrac :=
    match cs with
    | c :: rest => if c = '.' then (parseDigits rest).2 else cs
    | [] => cs
  match afterFrac with
  | c :: rest =>
    if c = 'e' || c = 'E' then
      match rest with
      | s :: rest2 =>
        if s = '+' || s = '-' then (parseDigits rest2).2 else (parseDigits rest).2
      | [] => rest
    else afterFrac
  | [] => afterFrac

mutual

/-- Parses a single JSON value from the input, fuel-bounded. -/
def parseVal (fuel : Nat) (cs : List Char) : Option (Json × List Char) :=
  match fuel with
  | 0 => none
  | fuel + 1 =>
    match skipWs cs with
    | [] => none
    | c :: rest =>
      if c = quoteChar then
        match parseStrChars rest with
        | some (l, r) => some (.str (String.mk l), r)
        | none => none
      else if c = lbraceChar then parseObjFields fuel rest
      else if c = '[' then parseArrItems fuel rest
      else if c = 't' then
        match rest with
        | 'r' :: 'u' :: 'e' :: r2 => some (.bool true, r2)
        | _ => none
      else if c = 'f' then
        match rest with
        | 'a' :: 'l' :: 's' :: 'e' :: r2 => some (.bool false, r2)
        | _ => none
      else if c = 'n' then
        match rest with
        | 'u' :: 'l' :: 'l' :: r2 => some (.null, r2)
        | _ => none
      else if c = '-' then
        match parseDigits rest with
        | ([], _) => none
        | (ds, r2) => some (.num (-(digitsToNat ds : Int)), skipNumTail r2)
      else if c.isDigit then
        match parseDigits (c :: rest) with
        | ([], _) => none
        | (ds, r2) => some (.num (digitsToNat ds : Int), skipNumTail r2)
      else none

/-- Parses the fields of a JSON object after the opening brace. -/
def parseObjFields (fuel : Nat) (cs : List Char) : Option (Json × List Char) :=
  match fuel with
  | 0 => none
  | fuel + 1 =>
    match skipWs cs with
    | [] => none
    | c :: rest =>
      if c = rbraceChar then some (.obj [], rest)
      else if c = quoteChar then
        match parseStrChars rest with
        | some (key, r1) =>
          match skipWs r1 with
          | ':' :: r2 =>
            match parseVal fuel r2 with
            | some (v, r3) =>
              match skipWs r3 with
              | ',' :: r4 =>
                match parseObjFields fuel r4 with
                | some (.obj fs, r5) => some (.obj ((String.mk key, v) :: fs), r5)
                | _ => none
              | c2 :: r4 =>
                if c2 = rbraceChar then some (.obj [(String.mk key, v)], r4) else none
              | [] => none
            | none => none
          | _ => none
        | none => none
      else none

/-- Parses the items of a JSON array after the opening bracket. -/
def parseArrItems (fuel : Nat) (cs : List Char) : Option (Json × List Char) :=
  match fuel with
  | 0 => none
  | fuel + 1 =>
    match skipWs cs with
    | [] => none
    | c :: rest =>
      if c = ']' then some (.arr [], rest)
      else
        match parseVal fuel (c :: rest) with
        | some (v, r1) =>
          match skipWs r1 with
          | ',' :: r2 =>
            match parseArrItems fuel r2 with
            | some (.arr xs, r3) => some (.arr (v :: xs), r3)
            | _ => none
          | ']' :: r2 => some (.arr [v], r2)
          | _ => none
        | none => none

end

/-- Model of the `JSON.parse` builtin: `none` models a thrown
`SyntaxError` (in particular `jsonParse "" = none`). -/
def jsonParse (s : String) : Option Json :=
  match parseVal (s.length + 1) s.toList with
  | some (j, rest) => if skipWs rest = [] then some j else none
  | none => none

/-- JavaScript property access `j.k` on a parsed value: defined for
objects, `undefined` (here `none`) on everything else. -/
def Json.getField : Json → String → Option Json
  | .obj fs, k => fs.lookup k
  | _, _ => none

/-- JavaScript truthiness of a possibly-undefined value: `undefined`,
`null`, `false`, `0` and `""` are falsy, everything else truthy. -/
def truthy : Option Json → Bool
  | none => false
  | some .null => false
  | some (.bool b) => b
  | some (.num n) => n != 0
  | some (.str s) => s != ""
  | some (.arr _) => true
  | some (.obj _) => true

/-! ## Request bodies and the `JSON.stringify` builtin

A `fetch` body is absent, a string, or a non-string value.  For a
non-string value only the behaviour of `JSON.stringify` on it matters to
the dispatcher, so the model carries that behaviour directly: a
serializable value together with its serialized form, or an
unserializable value (circular structure, for instance) on which the
builtin throws. -/

inductive JsBody where
  | none
  | str (s : String)
  | obj (serializable : Bool) (payload : String)
  deriving DecidableEq

/-- JavaScript truthiness of a body value (`""` is falsy). -/
def JsBody.truthyB : JsBody → Bool
  | .none => false
  | .str s => s != ""
  | .obj _ _ => true

/-- Model of the `JSON.stringify` builtin on a body value: `.error`
models a thrown `TypeError`. -/
def stringifyBody : JsBody → Except String String
  | .none => .ok "null"
  | .str s => .ok (quoteChar.toString ++ s ++ quoteChar.toString)
  | .obj true p => .ok p
  | .obj false _ => .error "Converting circular structure to JSON"

/-- The body-preparation step of `apiFetch` (script.js lines 161-169):
inside a `try` whose `catch (_) {}` swallows everything, a truthy
non-string body is replaced by its serialization; if `JSON.stringify`
throws, the exception is discarded and the body is left unchanged. -/
def serializeBody : JsBody → JsBody
  | .obj true p => .str p
  | b => b

/-! ## Transport oracle and outcomes

The browser `fetch` builtin is modelled as a deterministic oracle giving,
for each path and 0-indexed attempt number, either a transport-level
failure (rejected promise) or a response with status, status text,
content-type and fully-read body text. -/

inductive FetchOutcome where
  | fail (msg : String)
  | resp (status : Nat) (statusText : String) (contentType : String) (body : String)
  deriving DecidableEq

/-- The network environment seen by the dispatcher. -/
def Transport := String → Nat → FetchOutcome

/-- Options accepted by `apiFetch` (the subset of `RequestInit` the
dispatcher constructs: method, extra headers, body). -/
structure FetchOptions where
  method : String
  headers : List (String × String)
  body : JsBody
  deriving DecidableEq

/-- The options value a caller passing `{}` gets after the
`{ method: "GET", credentials: "include", ...options }` merge. -/
def defaultFetchOptions : FetchOptions :=
  { method := "GET", headers := [], body := JsBody.none }

/-- Header merge of `apiFetch`: a fixed `Content-Type: application/json`
overridden by any caller-supplied headers. -/
def mergeHeaders (base extra : List (String × String)) : List (String × String) :=
  base.filter (fun p => (extra.lookup p.1).isNone) ++ extra

/-- The fully-specified outbound request handed to the `fetch` builtin. -/
structure SentRequest where
  url : String
  method : String
  headers : List (String × String)
  body : JsBody
  deriving DecidableEq

/-- The response wrapper returned by a successful `apiFetch` attempt:
`ok: true`, the status, and accessors backed by the single buffered
body text (script.js lines 185-191). -/
structure ApiResponse where
  status : Nat
  contentType : String
  bodyText : String
  deriving DecidableEq

/-- The wrapper's `text()` accessor: returns the buffered text. -/
def ApiResponse.text (r : ApiResponse) : String := r.bodyText

/-- The wrapper's `json()` accessor:
`ct.includes("application/json") ? JSON.parse(text || "\x7b\x7d") : \x7b raw: text \x7d`;
`none` models a thrown parse error. -/
def ApiResponse.json (r : ApiResponse) : Option Json :=
  if strIncludes r.contentType "application/json" then
    jsonParse (if r.bodyText = "" then "\x7b\x7d" else r.bodyText)
  else
    some (Json.obj [("raw", Json.str r.bodyText)])

/-! ## Observable events

DOM mutations, the loading overlay, timer waits and `fetch` invocations
are recorded as a trace. -/

inductive Sender where
  | user
  | bot
  deriving DecidableEq

inductive Event where
  | addMsg (sender : Sender) (text : String)
  | updateBotMsg (text : String)
  | sleep (ms : Nat)
  | fetchCall (req : SentRequest)
  | showLoading
  | hideLoading
  | clearInput
  deriving DecidableEq

/-- Number of `fetch` invocations in a trace. -/
def countFetch (tr : List Event) : Nat :=
  tr.countP fun e =>
    match e with
    | .fetchCall _ => true
    | _ => false

/-- The inserted backoff waits of a trace, in order. -/
def delays (tr : List Event) : List Nat :=
  tr.filterMap fun e =>
    match e with
    | .sleep n => some n
    | _ => none

/-- The URLs of the `fetch` invocations of a trace, in order. -/
def fetchUrls (tr : List Event) : List String :=
  tr.filterMap fun e =>
    match e with
    | .fetchCall r => some r.url
    | _ => none

/-- The bodies transmitted by the `fetch` invocations of a trace. -/
def sentBodies (tr : List Event) : List JsBody :=
  tr.filterMap fun e =>
    match e with
    | .fetchCall r => some r.body
    | _ => none

/-- Number of bot messages with the given text in a trace. -/
def countBotMsg (s : String) (tr : List Event) : Nat :=
  tr.countP fun e =>
    match e with
    | .addMsg .bot m => m == s
    | _ => false

/-! ## The dispatcher: `apiFetch` -/

/-- Backend base address (script.js lines 15-17; the model takes the
hard-coded fallback, `window.env` being absent). -/
def API_BASE : String := "https://tegailawyer-production.up.railway.app/api"

/-- Outcome of one attempt of the `apiFetch` loop body: a wrapper on a
2xx response, otherwise the thrown error's message — either the
transport failure or `HTTP ${status}: ${text || res.statusText}`. -/
def attemptExcept (f : FetchOutcome) : Except String ApiResponse :=
  match f with
  | .fail m => .error m
  | .resp status statusText ct body =>
    if 200 ≤ status ∧ status < 300 then
      .ok { status := status, contentType := ct, bodyText := body }
    else
      .error ("HTTP " ++ toString status ++ ": " ++
        (if body = "" then statusText else body))

/-- The retry loop of `apiFetch` (script.js lines 173-200): attempt `i`,
and on failure with retries left, wait `800 * (i + 1)` ms and continue;
`fuel` is the number of retries remaining. -/
def apiFetchGo (o : Nat → FetchOutcome) (req : SentRequest) (i fuel : Nat) :
    List Event × Except String ApiResponse :=
  match attemptExcept (o i) with
  | .ok r => ([.fetchCall req], .ok r)
  | .error m =>
    match fuel with
    | 0 => ([.fetchCall req], .error m)
    | fuel' + 1 =>
      let rest := apiFetchGo o req (i + 1) fuel'
      (.fetchCall req :: .sleep (800 * (i + 1)) :: rest.1, rest.2)

/-- `apiFetch(path, options, retries)` (script.js lines 148-201):
builds the request (URL concatenation, option defaults, header merge,
body serialization with swallowed serialization errors), then runs the
retry loop.  Returns the event trace and the final result. -/
def apiFetch (t : Transport) (path : String) (options : FetchOptions)
    (retries : Nat) : List Event × Except String ApiResponse :=
  let req : SentRequest :=
    { url := API_BASE ++ path
      method := options.method
      headers := mergeHeaders [("Content-Type", "application/json")] options.headers
      body := serializeBody options.body }
  apiFetchGo (t path) req 0 retries

/-- `checkServerReady()` (script.js lines 209-216): probe `/health`;
on success return the truthiness of `index_ready` in the parsed body;
any thrown error (transport, HTTP, or JSON parse) yields `false`. -/
def checkServerReady (t : Transport) : List Event × Bool :=
  let p := apiFetch t "/health" defaultFetchOptions 1
  (p.1,
    match p.2 with
    | .error _ => false
    | .ok r =>
      match r.json with
      | none => false
      | some j => truthy (j.getField "index_ready"))

/-! ## The preset answer table (script.js lines 20-145) -/

/-- Key 1 of the preset answer table (source: PRESET_ANSWERS in script.js). -/
def presetKey1 : String :=
  "Как правильно уволиться с работы?"

/-- HTML value 1 of the preset answer table (source: PRESET_ANSWERS in script.js). -/
def presetHtml1 : String :=
"<h3>Юридическая оценка</h3>
<p>Общий порядок увольнения по инициативе работника в Республике Казахстан предусматривает <strong>письменное уведомление работодателя</strong> и соблюдение срока предупреждения, который обычно составляет <strong>не менее 1 месяца</strong> (если иное не согласовано сторонами). Работодатель обязан произвести окончательный расчёт и выдать документы в установленный срок.</p>

<h3>Что делать пошагово</h3>
<ul>
  <li><strong>Подготовить заявление.</strong> Кратко: прошу уволить по собственному желанию с указанием даты увольнения.</li>
  <li><strong>Передать работодателю под отметку.</strong> Лично в канцелярию/HR и получить входящий номер или подпись о получении.</li>
  <li><strong>Отработать срок предупреждения.</strong> Возможна договорённость об увольнении раньше указанной даты (по соглашению сторон).</li>
  <li><strong>Получить расчёт и документы.</strong> Зарплата, компенсация за неиспользованный отпуск, иные выплаты; выдать/подтвердить выдачу трудовых документов.</li>
  <li><strong>При споре.</strong> Письменная претензия работодателю → инспекция труда → суд (при необходимости).</li>
</ul>

<h3>Мини-шаблон заявления</h3>
<pre class=\"code-block\"><code>Руководителю ___________________________
от ____________________________________
должность ______________________________

ЗАЯВЛЕНИЕ
Прошу уволить меня по собственному желанию с «___»________20__ г.
С условиями окончательного расчёта ознакомлен(а).

Дата ____________    Подпись _____________ /ФИО/
</code></pre>

<h3>Какие документы иметь при себе</h3>
<ul>
  <li>Удостоверение личности.</li>
  <li>Трудовой договор/приказ о приёме (если есть копии).</li>
  <li>Справки по зарплате (при наличии), табель/график — для сверки расчётов.</li>
</ul>

<h3>Полезно знать</h3>
<ul>
  <li>Срок предупреждения может быть изменён <strong>по соглашению сторон</strong> (например, без отработки).</li>
  <li>Компенсацию за неиспользованный отпуск выплачивают при увольнении.</li>
</ul>"

/-- Key 2 of the preset answer table (source: PRESET_ANSWERS in script.js). -/
def presetKey2 : String :=
  "Какие права у арендатора жилья?"

/-- HTML value 2 of the preset answer table (source: PRESET_ANSWERS in script.js). -/
def presetHtml2 : String :=
"<h3>Ключевые права арендатора</h3>
<ul>
  <li><strong>Письменный договор найма.</strong> Договор фиксирует цену, срок, права/обязанности, залог, порядок расторжения и возврата имущества.</li>
  <li><strong>Надлежащее состояние жилья.</strong> Жильё должно быть пригодно для проживания, исправные коммуникации и безопасность.</li>
  <li><strong>Конфиденциальность и спокойное владение.</strong> Собственник не вправе заходить без согласования, кроме аварийных случаев.</li>
  <li><strong>Прозрачные платежи.</strong> Арендная плата и коммунальные — по договору и/или показаниям. Изменение условий — только по договору или с уведомлением в предусмотренные сроки.</li>
  <li><strong>Залог (депозит).</strong> Возвращается при выезде при отсутствии ущерба/задолженности (с актом сверки и актом возврата).</li>
</ul>

<h3>Что проверить и как защититься</h3>
<ul>
  <li><strong>Акт приёма-передачи</strong> с перечислением мебели/техники, фотофиксация состояния.</li>
  <li><strong>Квитанции/переводы</strong> по оплатам — хранить всю историю платежей.</li>
  <li><strong>Претензия арендодателю</strong> при нарушениях (письменно, с сроком на устранение). При неисполнении — медиация/суд.</li>
</ul>

<h3>Мини-чек-лист перед подписанием</h3>
<ul>
  <li>Право собственности у арендодателя (свидетельство/выписка).</li>
  <li>Точный адрес, срок, стоимость, коммунальные (кто платит), размер и условия возврата депозита.</li>
  <li>Правила визитов собственника и досрочного расторжения (срок уведомления).</li>
</ul>"

/-- Key 3 of the preset answer table (source: PRESET_ANSWERS in script.js). -/
def presetKey3 : String :=
  "Как подать на алименты?"

/-- HTML value 3 of the preset answer table (source: PRESET_ANSWERS in script.js). -/
def presetHtml3 : String :=
"<h3>Варианты взыскания</h3>
<ul>
  <li><strong>Нотариальное соглашение об уплате алиментов.</strong> Заключается между родителями, удостоверяется у нотариуса, имеет силу исполнительного документа.</li>
  <li><strong>Через суд.</strong> 
    <ul>
      <li><em>Судебный приказ</em> — быстрый порядок при бесспорных требованиях.</li>
      <li><em>Исковое производство</em> — если есть спор (о доле, сумме, дополнительных расходах и т.п.).</li>
    </ul>
  </li>
</ul>

<h3>Размер</h3>
<p>Чаще всего суд взыскивает долю от дохода плательщика: <strong>1/4 — на одного ребёнка, 1/3 — на двоих, 1/2 — на трёх и более</strong>. Возможна твёрдая денежная сумма, если доход нерегулярен.</p>

<h3>Документы</h3>
<ul>
  <li>Удостоверение личности заявителя.</li>
  <li>Свидетельство о рождении ребёнка(детей).</li>
  <li>Справки о доходах (при наличии), расходы на ребёнка (чеки/квитанции) — по ситуации.</li>
  <li>Данные о месте работы/доходах ответчика (если известны).</li>
</ul>

<h3>Порядок действий</h3>
<ul>
  <li>Попробовать <strong>нотариальное соглашение</strong> (быстро и без суда).</li>
  <li>Либо подать в суд заявление (на судебный приказ или иск) по месту жительства ответчика/истца (в установленных случаях).</li>
  <li>Получить исполнительный документ и обратиться к <strong>частному судебному исполнителю</strong> для принудительного взыскания.</li>
</ul>

<h3>Важно</h3>
<ul>
  <li>Алименты назначаются <strong>с даты обращения</strong> (суд/нотариус), поэтому не затягивайте.</li>
  <li>При изменении обстоятельств (доход, состояние здоровья) возможно изменение размера алиментов через суд.</li>
</ul>"

/-- Key 4 of the preset answer table (source: PRESET_ANSWERS in script.js). -/
def presetKey4 : String :=
  "Что делать при ДТП?"

/-- HTML value 4 of the preset answer table (source: PRESET_ANSWERS in script.js). -/
def presetHtml4 : String :=
"<h3>Безопасность на первом месте</h3>
<ul>
  <li>Остановитесь, включите аварийку, выставьте знак аварийной остановки.</li>
  <li>Есть пострадавшие или угрозы? Звоните <strong>112</strong>, для полиции — <strong>102</strong>.</li>
</ul>

<h3>Фиксация обстоятельств</h3>
<ul>
  <li>Фото/видео положения авто, следов, повреждений, дорожных знаков, камеры, свидетелей.</li>
  <li>Обмен данными: ФИО, ИИН, контакты, полис ОСАГО, номер ТС, водительское удостоверение.</li>
</ul>

<h3>Оформление</h3>
<ul>
  <li>При разногласиях, травмах или значительном ущербе — <strong>ожидайте полицию</strong>.</li>
  <li>Если без пострадавших и спорных вопросов, действуйте по инструкции страховщика (упрощённое оформление, если применимо).</li>
</ul>

<h3>Страховая</h3>
<ul>
  <li>Сообщите в свою страховую <strong>в установленные договором сроки</strong> (как правило, незамедлительно).</li>
  <li>Передайте пакет документов, пройдите осмотр ТС.</li>
</ul>

<h3>Полезно</h3>
<ul>
  <li>Не перемещайте авто до фиксации, если это не мешает движению (или отметьте положение, затем освободите полосу).</li>
  <li>Не подписывайте документы, смысл которых не понимаете — просите разъяснение.</li>
</ul>"

/-- `PRESET_ANSWERS`: the fixed mapping from exact question text to
pre-rendered HTML. -/
def PRESET_ANSWERS : List (String × String) :=
  [(presetKey1, presetHtml1), (presetKey2, presetHtml2),
   (presetKey3, presetHtml3), (presetKey4, presetHtml4)]

/-- The exact-property lookup `PRESET_ANSWERS[messageText]`. -/
def presetLookup (m : String) : Option String :=
  PRESET_ANSWERS.lookup m

/-! ## The orchestrating entry point: `sendMessage` -/

/-- The transient placeholder shown while a preset answer "thinks". -/
def thinkingText : String := "ИИ-юрист анализирует ваш запрос…"

/-- The warming-up notice rendered when the readiness probe fails
(script.js lines 301-305). -/
def warmingNotice : String :=
  "\n                    <div style=\"color: #e67e22; padding: 1rem; background: #fef9e7; border-radius: 10px;\">\n                        Сервер готовится к работе... Пожалуйста, попробуйте через 10-15 секунд.\n                    </div>\n                "

/-- Fallback text substituted for a missing or falsy error message. -/
def fallbackAnswerMsg : String := "Не удалось получить ответ."

/-- The red error block template, with the message interpolated. -/
def errorBlockHtml (m : String) : String :=
  "\n                <div style=\"color: #e74c3c; padding: 1rem; background: #fdf2f2; border-radius: 10px; border-left: 4px solid #e74c3c;\">\n                    <strong>Ошибка</strong><br>\n                    " ++ m ++ "\n                </div>\n            "

/-- Message text of the `SyntaxError` thrown by `JSON.parse` on a
malformed body (platform text, modelled as a constant). -/
def jsonSyntaxErrorMsg : String := "Unexpected token in JSON"

/-- Coercion of a possibly-undefined value into the string interpolated
into the DOM (`template ${...}` / `innerHTML` assignment).  Composite
values are coerced coarsely; no claim depends on them. -/
def displayText : Option Json → String
  | Option.none => "undefined"
  | some .null => "null"
  | some (.bool b) => cond b "true" "false"
  | some (.num n) => toString n
  | some (.str s) => s
  | some (.arr _) => "[array]"
  | some (.obj _) => "[object Object]"

/-- Model of the serialized `\x7b question: messageText.trim() \x7d`
request body handed to `JSON.stringify` (string escaping elided; no
claim inspects the payload). -/
def questionBody (q : String) : String :=
  "\x7b\"question\":\"" ++ q ++ "\"\x7d"

/-- The `/ask` call and response handling of `sendMessage`
(script.js lines 310-340): POST the question with one retry; on a thrown
error render the connection-error block; on a parsed body without a
truthy `ok` render the logical-error block; otherwise render
`data.answer_html`.  The `finally` clause hides the loading overlay on
every path. -/
def askPhase (messageText : String) (t : Transport) : List Event :=
  let askOptions : FetchOptions :=
    { method := "POST", headers := [], body := JsBody.obj true (questionBody (jsTrim messageText)) }
  match apiFetch t "/ask" askOptions 1 with
  | (tr, .error m) =>
    tr ++ [.addMsg .bot (errorBlockHtml (if m = "" then fallbackAnswerMsg else m)), .hideLoading]
  | (tr, .ok r) =>
    match r.json with
    | Option.none =>
      tr ++ [.addMsg .bot (errorBlockHtml jsonSyntaxErrorMsg), .hideLoading]
    | some data =>
      if truthy (data.getField "ok") then
        tr ++ [.addMsg .bot (displayText (data.getField "answer_html")), .hideLoading]
      else
        let v := (data.getField "error").bind fun e => e.getField "message"
        let m := if truthy v then displayText v else fallbackAnswerMsg
        tr ++ [.addMsg .bot (errorBlockHtml m), .hideLoading]

/-- The remote branch of `sendMessage` (script.js lines 286-340): user
message, input clearing for typed input, loading overlay, readiness
gate, then the `/ask` phase.  On a failed gate the warming notice is
rendered and the overlay hidden twice: once explicitly, once by the
`finally` clause. -/
def remoteSend (messageText : String) (falsy : Bool) (t : Transport) : List Event :=
  [Event.addMsg .user messageText] ++ (if falsy then [Event.clearInput] else []) ++
    [Event.showLoading] ++
    (let pr := checkServerReady t
     if pr.2 then pr.1 ++ askPhase messageText t
     else pr.1 ++ [.addMsg .bot warmingNotice, .hideLoading, .hideLoading])

/-- The body of `sendMessage` after the message text is resolved
(script.js lines 261-341): empty text returns immediately; an exact,
truthy preset hit renders the preset locally (user message, thinking
placeholder, 2000 ms simulated delay, HTML swap, input clearing for
typed input) and never reaches the network; otherwise the remote branch
runs. -/
def sendCore (messageText : String) (falsy : Bool) (t : Transport) : List Event :=
  if messageText = "" then []
  else
    match presetLookup messageText with
    | some h =>
      if h = "" then remoteSend messageText falsy t
      else
        [Event.addMsg .user messageText, Event.addMsg .bot thinkingText,
         Event.sleep 2000, Event.updateBotMsg h] ++
          (if falsy then [Event.clearInput] else [])
    | Option.none => remoteSend messageText falsy t

/-- `sendMessage(message = null)`: the message argument (`none` models
`null`), the trimmed textarea value as fallback for a falsy argument,
and the transport.  `falsy` reproduces the `if (!message)` input-clearing
condition. -/
def sendMessage (message : Option String) (inputValue : String) (t : Transport) :
    List Event :=
  let messageText :=
    match message with
    | some s => if s = "" then jsTrim inputValue else s
    | Option.none => jsTrim inputValue
  let falsy :=
    match message with
    | some s => s == ""
    | Option.none => true
  sendCore messageText falsy t

/-! ## The Edge Relay (`src/frontend/api/[...path].js`)

The serverless `handler(req, res)` is embedded as a pure function from
the incoming request and a backend oracle to the final response state.
The `res` builder calls (`setHeader`, `status`, `write`, `end`, `json`)
are accumulated into a `RelayResult`; streamed chunks are kept as the
list of written chunks.  A mid-stream read failure is not modelled (the
chunk source is a pure list); the forwarding fault of the `catch` clause
is the thrown `fetch` rejection or a body-serialization error. -/

/-- The relay's backend origin (the `process.env.BACKEND_URL` fallback). -/
def BACKEND_URL : String := "https://tegailawyer-production.up.railway.app/api"

/-- The `query.path` catch-all segment: an array of segments, a plain
string, or absent. -/
inductive QueryPath where
  | arr (segs : List String)
  | str (s : String)
  | missing
  deriving DecidableEq

/-- `Array.isArray(query.path) ? query.path.join('/') : query.path || ''`. -/
def pathOf : QueryPath → String
  | .arr segs => String.intercalate "/" segs
  | .str s => s
  | .missing => ""

/-- The incoming request as the relay consumes it. -/
structure RelayReq where
  method : String
  queryPath : QueryPath
  contentType : Option String
  authorization : Option String
  body : JsBody

/-- The options of the forwarded `fetch` call. -/
structure RelayFetchOptions where
  method : String
  headers : List (String × String)
  body : Option String
  deriving DecidableEq

/-- What the backend does with the forwarded call: throw during the
`fetch`, or respond with a status, optional content-type, and an
optionally streamable body. -/
inductive BackendOutcome where
  | throws (msg : String)
  | respond (status : Nat) (contentType : Option String) (chunks : Option (List String))

/-- The backend oracle: URL and forwarded options to outcome. -/
def Backend := String → RelayFetchOptions → BackendOutcome

/-- The body finally carried by the relay's response. -/
inductive RelayBody where
  | empty
  | chunks (cs : List String)
  | json (j : Json)

/-- The accumulated final state of the `res` builder, plus the number of
backend calls made. -/
structure RelayResult where
  status : Nat
  headers : List (String × String)
  body : RelayBody
  backendCalls : Nat

/-- The `error` field of a JSON error envelope, if the body is one. -/
def RelayBody.errorField : RelayBody → Option Json
  | .json j => j.getField "error"
  | _ => Option.none

/-- The `details` field of a JSON error envelope, if the body is one. -/
def RelayBody.detailsField : RelayBody → Option Json
  | .json j => j.getField "details"
  | _ => Option.none

/-- Whether a possibly-undefined value is a string. -/
def isStrValue : Option Json → Bool
  | some (.str _) => true
  | _ => false

/-- `'Content-Type': req.headers['content-type'] || 'application/json'`. -/
def relayContentType (req : RelayReq) : String :=
  match req.contentType with
  | some ct => if ct = "" then "application/json" else ct
  | Option.none => "application/json"

/-- The forwarded header set: content-type, plus the authorization
header when present (and truthy). -/
def relayHeaders (req : RelayReq) : List (String × String) :=
  ("Content-Type", relayContentType req) ::
    (match req.authorization with
     | some a => if a = "" then [] else [("Authorization", a)]
     | Option.none => [])

/-- The body attached to the forwarded call (lines 33-39): only for
non-GET/HEAD methods with a truthy body; a string is passed through,
anything else goes through `JSON.stringify`, whose exception (if any)
escapes to the handler's `catch`. -/
def relayBodyOf (req : RelayReq) : Except String (Option String) :=
  if req.method ≠ "GET" ∧ req.method ≠ "HEAD" ∧ req.body.truthyB then
    match req.body with
    | .str s => .ok (some s)
    | b =>
      match stringifyBody b with
      | .ok s => .ok (some s)
      | .error m => .error m
  else .ok Option.none

/-- The response produced by the handler's `catch` clause (lines 72-76):
`Access-Control-Allow-Origin` re-attached, status 500, JSON envelope
with a generic `error` and the thrown message as `details`. -/
def catchResult (m : String) (calls : Nat) : RelayResult :=
  { status := 500
    headers := [("Access-Control-Allow-Origin", "*")]
    body := RelayBody.json (Json.obj
      [("error", Json.str "Proxy error"), ("details", Json.str m)])
    backendCalls := calls }

/-- The CORS headers set on every forwarded response (lines 44-47). -/
def forwardCorsHeaders : List (String × String) :=
  [("Access-Control-Allow-Origin", "*"),
   ("Access-Control-Allow-Methods", "GET, POST, OPTIONS, DELETE"),
   ("Access-Control-Allow-Headers", "Content-Type, Authorization"),
   ("Access-Control-Allow-Credentials", "true")]

/-- The relay `handler` (lines 3-77): immediate CORS preflight answer
for OPTIONS; otherwise reconstruct the target URL, forward method,
headers and body, copy status, content-type and CORS headers back, and
relay the chunked body; any exception while forwarding yields the fixed
500 envelope. -/
def handler (req : RelayReq) (backend : Backend) : RelayResult :=
  if req.method = "OPTIONS" then
    { status := 200
      headers := [("Access-Control-Allow-Origin", "*"),
                  ("Access-Control-Allow-Methods", "GET, POST, OPTIONS"),
                  ("Access-Control-Allow-Headers", "Content-Type")]
      body := RelayBody.empty
      backendCalls := 0 }
  else
    let url := BACKEND_URL ++ "/" ++ pathOf req.queryPath
    match relayBodyOf req with
    | .error m => catchResult m 0
    | .ok ob =>
      match backend url { method := req.method, headers := relayHeaders req, body := ob } with
      | .throws m => catchResult m 1
      | .respond status ct chunks =>
        { status := status
          headers := forwardCorsHeaders ++
            (match ct with
             | some c => [("Content-Type", c)]
             | Option.none => [])
          body := match chunks with
            | some cs => RelayBody.chunks cs
            | Option.none => RelayBody.empty
          backendCalls := 1 }

/-! ## Helper lemmas about the retry loop -/

/-- Unfolding: a successful attempt ends the loop at once. -/
theorem apiFetchGo_ok (o : Nat → FetchOutcome) (req : SentRequest) (i fuel : Nat)
    (r : ApiResponse) (h : attemptExcept (o i) = .ok r) :
    apiFetchGo o req i fuel = ([.fetchCall req], .ok r) := by
  unfold apiFetchGo
  rw [h]

/-- Unfolding: a failed attempt with no retries left propagates the error. -/
theorem apiFetchGo_err_zero (o : Nat → FetchOutcome) (req : SentRequest) (i : Nat)
    (m : String) (h : attemptExcept (o i) = .error m) :
    apiFetchGo o req i 0 = ([.fetchCall req], .error m) := by
  unfold apiFetchGo
  rw [h]

/-- Unfolding: a failed attempt with retries left waits `800 * (i + 1)`
milliseconds and continues. -/
theorem apiFetchGo_err_succ (o : Nat → FetchOutcome) (req : SentRequest) (i n : Nat)
    (m : String) (h : attemptExcept (o i) = .error m) :
    apiFetchGo o req i (n + 1) =
      (.fetchCall req :: .sleep (800 * (i + 1)) :: (apiFetchGo o req (i + 1) n).1,
       (apiFetchGo o req (i + 1) n).2) := by
  conv_lhs => unfold apiFetchGo
  rw [h]

/-- When every attempt fails, the loop makes `fuel + 1` calls and
returns the last attempt's error. -/
theorem apiFetchGo_allFail (o : Nat → FetchOutcome) (req : SentRequest)
    (h : ∀ j, ∃ m, attemptExcept (o j) = .error m) :
    ∀ fuel i,
      countFetch (apiFetchGo o req i fuel).1 = fuel + 1 ∧
      (apiFetchGo o req i fuel).2 = attemptExcept (o (i + fuel)) := by
  intro fuel
  induction fuel with
  | zero =>
    intro i
    obtain ⟨m, hm⟩ := h i
    rw [apiFetchGo_err_zero o req i m hm]
    simp [countFetch, hm]
  | succ n ih =>
    intro i
    obtain ⟨m, hm⟩ := h i
    rw [apiFetchGo_err_succ o req i n m hm]
    obtain ⟨ihc, ihr⟩ := ih (i + 1)
    refine ⟨?_, ?_⟩
    · have hc : countFetch (Event.fetchCall req :: Event.sleep (800 * (i + 1)) ::
          (apiFetchGo o req (i + 1) n).1) = countFetch (apiFetchGo o req (i + 1) n).1 + 1 := by
        simp [countFetch, List.countP_cons]
      rw [hc, ihc]
    · rw [ihr]
      have he : i + 1 + n = i + (n + 1) := by omega
      rw [he]

/-- When every attempt fails, the inserted waits are
`800 * (i + 1), 800 * (i + 2), …`, one per remaining retry. -/
theorem apiFetchGo_delays (o : Nat → FetchOutcome) (req : SentRequest)
    (h : ∀ j, ∃ m, attemptExcept (o j) = .error m) :
    ∀ fuel i,
      delays (apiFetchGo o req i fuel).1 =
        (List.range' (i + 1) fuel).map (fun k => 800 * k) := by
  intro fuel
  induction fuel with
  | zero =>
    intro i
    obtain ⟨m, hm⟩ := h i
    rw [apiFetchGo_err_zero o req i m hm]
    simp [delays]
  | succ n ih =>
    intro i
    obtain ⟨m, hm⟩ := h i
    rw [apiFetchGo_err_succ o req i n m hm]
    have hd : delays (Event.fetchCall req :: Event.sleep (800 * (i + 1)) ::
        (apiFetchGo o req (i + 1) n).1) =
        800 * (i + 1) :: delays (apiFetchGo o req (i + 1) n).1 := by
      simp [delays]
    rw [hd, ih (i + 1), List.range'_succ (i + 1) n 1, List.map_cons]

/-- Every event the loop emits is the (single, fixed) outbound request
or a backoff wait. -/
theorem apiFetchGo_events (o : Nat → FetchOutcome) (req : SentRequest) :
    ∀ fuel i e, e ∈ (apiFetchGo o req i fuel).1 →
      e = .fetchCall req ∨ ∃ ms, e = .sleep ms := by
  intro fuel
  induction fuel with
  | zero =>
    intro i e he
    match hr : attemptExcept (o i) with
    | .ok r =>
      rw [apiFetchGo_ok o req i 0 r hr] at he
      simp at he
      exact Or.inl he
    | .error m =>
      rw [apiFetchGo_err_zero o req i m hr] at he
      simp at he
      exact Or.inl he
  | succ n ih =>
    intro i e he
    match hr : attemptExcept (o i) with
    | .ok r =>
      rw [apiFetchGo_ok o req i (n + 1) r hr] at he
      simp at he
      exact Or.inl he
    | .error m =>
      rw [apiFetchGo_err_succ o req i n m hr] at he
      simp only [List.mem_cons] at he
      rcases he with h1 | h2 | h3
      · exact Or.inl h1
      · exact Or.inr ⟨800 * (i + 1), h2⟩
      · exact ih (i + 1) e h3

/-- All `fetch` invocations of the loop target the fixed request URL. -/
theorem apiFetchGo_urls (o : Nat → FetchOutcome) (req : SentRequest)
    (fuel i : Nat) :
    ∀ u ∈ fetchUrls (apiFetchGo o req i fuel).1, u = req.url := by
  intro u hu
  simp only [fetchUrls, List.mem_filterMap] at hu
  obtain ⟨e, he, hfe⟩ := hu
  rcases apiFetchGo_events o req fuel i e he with h1 | ⟨ms, h2⟩
  · subst h1
    simp at hfe
    exact hfe.symm
  · subst h2
    simp at hfe

/-- All bodies the loop transmits are the fixed request body. -/
theorem apiFetchGo_bodies (o : Nat → FetchOutcome) (req : SentRequest)
    (fuel i : Nat) :
    ∀ b ∈ sentBodies (apiFetchGo o req i fuel).1, b = req.body := by
  intro b hb
  simp only [sentBodies, List.mem_filterMap] at hb
  obtain ⟨e, he, hfe⟩ := hb
  rcases apiFetchGo_events o req fuel i e he with h1 | ⟨ms, h2⟩
  · subst h1
    simp at hfe
    exact hfe.symm
  · subst h2
    simp at hfe

/-- The loop renders no chat messages. -/
theorem apiFetchGo_no_bot_msg (o : Nat → FetchOutcome) (req : SentRequest)
    (s : String) (fuel i : Nat) :
    countBotMsg s (apiFetchGo o req i fuel).1 = 0 := by
  simp only [countBotMsg]
  rw [List.countP_eq_zero]
  intro e he
  rcases apiFetchGo_events o req fuel i e he with h1 | ⟨ms, h2⟩
  · subst h1
    simp
  · subst h2
    simp

/-- The loop always issues at least one `fetch` call. -/
theorem apiFetchGo_pos (o : Nat → FetchOutcome) (req : SentRequest)
    (fuel i : Nat) : 1 ≤ countFetch (apiFetchGo o req i fuel).1 := by
  match hr : attemptExcept (o i), fuel with
  | .ok r, fuel =>
    rw [apiFetchGo_ok o req i fuel r hr]
    simp [countFetch]
  | .error m, 0 =>
    rw [apiFetchGo_err_zero o req i m hr]
    simp [countFetch]
  | .error m, n + 1 =>
    rw [apiFetchGo_err_succ o req i n m hr]
    simp [countFetch]

/-! ## Named lemmas about the wrapper accessors and fixtures -/

/-- `JSON.parse` of the empty-object text yields the empty object. -/
theorem jsonParse_emptyObject : jsonParse "\x7b\x7d" = some (Json.obj []) := rfl

/-- `JSON.parse` of the empty string fails (the builtin throws). -/
theorem jsonParse_empty : jsonParse "" = Option.none := rfl

/-- A transport whose every attempt fails at the transport level. -/
def failBoom : Transport := fun _ _ => FetchOutcome.fail "boom"

/-- A transport answering 200 with an empty `application/json` body. -/
def okEmptyJson : Transport := fun _ _ => FetchOutcome.resp 200 "OK" "application/json" ""

/-- A transport answering 200 with the empty JSON object. -/
def okJson2 : Transport := fun _ _ => FetchOutcome.resp 200 "OK" "application/json" "\x7b\x7d"

/-- A transport answering 200 with a nonempty JSON body. -/
def okJsonA : Transport := fun _ _ => FetchOutcome.resp 200 "OK" "application/json" "\x7b\"a\":1\x7d"

/-- A transport answering 200 with a plain-text body. -/
def okPlainT : Transport := fun _ _ => FetchOutcome.resp 200 "OK" "text/plain" "hello"

/-- A transport answering 503 with a body on every attempt. -/
def resp503 : Transport := fun _ _ => FetchOutcome.resp 503 "Service Unavailable" "text/plain" "overloaded"

/-- The wrapper of the empty-bodied JSON response. -/
def emptyJsonResp : ApiResponse :=
  { status := 200, contentType := "application/json", bodyText := "" }

/-- The wrapper of the nonempty JSON response. -/
def jsonRespA : ApiResponse :=
  { status := 200, contentType := "application/json", bodyText := "\x7b\"a\":1\x7d" }

/-- The wrapper of the plain-text response. -/
def plainResp : ApiResponse :=
  { status := 200, contentType := "text/plain", bodyText := "hello" }

/-- An explicit `sendMessage` argument resolves to itself. -/
theorem sendMessage_some (msg input : String) (t : Transport) (h : msg ≠ "") :
    sendMessage (some msg) input t = sendCore msg false t := by
  have hb : (msg == "") = false := beq_eq_false_iff_ne.mpr h
  simp [sendMessage, h, hb]

/-! ## Claim C1 -/

/-- Claim C1: a message that is an exact key of the preset answer table
issues no network call; the trace is exactly: user message, thinking
placeholder, the fixed 2000 ms simulated delay, then the bot message
updated to exactly the table's HTML for that key. -/
theorem preset_message_local (msg html input : String) (t : Transport)
    (hk : presetLookup msg = some html) (hmsg : msg ≠ "") (hhtml : html ≠ "") :
    countFetch (sendMessage (some msg) input t) = 0 ∧
    sendMessage (some msg) input t =
      [Event.addMsg .user msg, Event.addMsg .bot thinkingText,
       Event.sleep 2000, Event.updateBotMsg html] := by
  have h1 : sendMessage (some msg) input t = sendCore msg false t :=
    sendMessage_some msg input t hmsg
  have h2 : sendCore msg false t =
      [Event.addMsg .user msg, Event.addMsg .bot thinkingText,
       Event.sleep 2000, Event.updateBotMsg html] := by
    simp [sendCore, hmsg, hk, hhtml]
  rw [h1, h2]
  exact ⟨rfl, rfl⟩

/-- Witness for C1 at the first demo question. -/
theorem preset_message_local_witness :
    countFetch (sendMessage (some presetKey1) "" failBoom) = 0 ∧
    sendMessage (some presetKey1) "" failBoom =
      [Event.addMsg .user presetKey1, Event.addMsg .bot thinkingText,
       Event.sleep 2000, Event.updateBotMsg presetHtml1] :=
  preset_message_local presetKey1 presetHtml1 "" failBoom rfl
    (by decide) (by decide)

/-! ## Claim C2 -/

/-- Claim C2 counterexample: with `retries = 1` on an always-failing
transport, the only inserted delay — the one before attempt 2 — is
800 ms, that is `baseDelay × 1`, not `baseDelay × 2 = 1600` as the claim
states for attempt `i = 2`. -/
theorem dispatch_backoff_cex :
    delays (apiFetch failBoom "/ask" defaultFetchOptions 1).1 = [800] ∧
    (800 : Nat) ≠ 800 * 2 := ⟨rfl, by decide⟩

/-- Claim C2 (amended): on a transport failing every attempt,
`apiFetch` with retry count `r` makes exactly `r + 1` calls, the delay
before attempt `i` (1-indexed, `i ≥ 2`) is `baseDelay × (i − 1)` — the
delay list is `[800·1, …, 800·r]` — and the final attempt's failure is
propagated to the caller. -/
theorem dispatch_retry_linear_backoff (t : Transport) (path : String)
    (opts : FetchOptions) (r : Nat) (m : Nat → String)
    (hf : ∀ j, t path j = .fail (m j)) :
    countFetch (apiFetch t path opts r).1 = r + 1 ∧
    delays (apiFetch t path opts r).1 = (List.range' 1 r).map (fun k => 800 * k) ∧
    (apiFetch t path opts r).2 = .error (m r) := by
  have herr : ∀ j, ∃ mm, attemptExcept (t path j) = .error mm :=
    fun j => ⟨m j, by rw [hf j]; rfl⟩
  unfold apiFetch
  refine ⟨(apiFetchGo_allFail (t path) _ herr r 0).1,
          apiFetchGo_delays (t path) _ herr r 0, ?_⟩
  rw [(apiFetchGo_allFail (t path) _ herr r 0).2, Nat.zero_add, hf r]
  rfl

/-- Witness for C2 (amended) at `r = 2`: three calls, delays 800 then
1600, final error surfaced. -/
theorem dispatch_retry_linear_backoff_witness :
    countFetch (apiFetch failBoom "/ask" defaultFetchOptions 2).1 = 2 + 1 ∧
    delays (apiFetch failBoom "/ask" defaultFetchOptions 2).1 =
      (List.range' 1 2).map (fun k => 800 * k) ∧
    (apiFetch failBoom "/ask" defaultFetchOptions 2).2 = .error "boom" :=
  dispatch_retry_linear_backoff failBoom "/ask" defaultFetchOptions 2
    (fun _ => "boom") (fun _ => rfl)

/-! ## Claim C8 -/

/-- Claim C8: a non-2xx response on every attempt is retried exactly
like a transport failure — `r + 1` calls in total — and the error
finally surfaced is `HTTP ${status}: ${bodyText}`, carrying the HTTP
status and the response body text of the last attempt. -/
theorem http_error_retried_and_surfaced (t : Transport) (path : String)
    (opts : FetchOptions) (r : Nat) (s : Nat → Nat) (st ct b : Nat → String)
    (hresp : ∀ j, t path j = .resp (s j) (st j) (ct j) (b j))
    (hbad : ∀ j, ¬(200 ≤ s j ∧ s j < 300))
    (hbody : b r ≠ "") :
    countFetch (apiFetch t path opts r).1 = r + 1 ∧
    (apiFetch t path opts r).2 =
      .error ("HTTP " ++ toString (s r) ++ ": " ++ b r) := by
  have herr : ∀ j, ∃ mm, attemptExcept (t path j) = .error mm := by
    intro j
    refine ⟨"HTTP " ++ toString (s j) ++ ": " ++ (if b j = "" then st j else b j), ?_⟩
    rw [hresp j]
    simp [attemptExcept, hbad j]
  unfold apiFetch
  refine ⟨(apiFetchGo_allFail (t path) _ herr r 0).1, ?_⟩
  rw [(apiFetchGo_allFail (t path) _ herr r 0).2, Nat.zero_add, hresp r]
  simp [attemptExcept, hbad r, hbody]

/-- Witness for C8: a constant 503 with body `overloaded`, one retry. -/
theorem http_error_retried_and_surfaced_witness :
    countFetch (apiFetch resp503 "/ask" defaultFetchOptions 1).1 = 1 + 1 ∧
    (apiFetch resp503 "/ask" defaultFetchOptions 1).2 =
      .error ("HTTP " ++ toString 503 ++ ": " ++ "overloaded") :=
  http_error_retried_and_surfaced resp503 "/ask" defaultFetchOptions 1
    (fun _ => 503) (fun _ => "Service Unavailable") (fun _ => "text/plain")
    (fun _ => "overloaded") (fun _ => rfl)
    (fun _ => by show ¬(200 ≤ 503 ∧ 503 < 300); decide) (by decide)

/-! ## Claim C9 -/

/-- Claim C9: `sendMessage()` with no explicit argument and an input
whose trimmed value is empty returns immediately — the trace is empty,
so no message, no network call and no busy indicator. -/
theorem empty_input_noop (input : String) (t : Transport)
    (h : jsTrim input = "") :
    sendMessage Option.none input t = [] ∧
    countFetch (sendMessage Option.none input t) = 0 := by
  have h1 : sendMessage Option.none input t = [] := by
    simp [sendMessage, sendCore, h]
  exact ⟨h1, by rw [h1]; rfl⟩

/-- Witness for C9 at a whitespace-only input. -/
theorem empty_input_noop_witness :
    sendMessage Option.none "   " failBoom = [] ∧
    countFetch (sendMessage Option.none "   " failBoom) = 0 :=
  empty_input_noop "   " failBoom (by decide)

/-! ## Claim C3 -/

/-- Every URL the readiness probe contacts is the health endpoint. -/
theorem checkServerReady_urls (t : Transport) :
    ∀ u ∈ fetchUrls (checkServerReady t).1, u = API_BASE ++ "/health" := by
  intro u hu
  exact apiFetchGo_urls (t "/health")
    { url := API_BASE ++ "/health", method := "GET",
      headers := mergeHeaders [("Content-Type", "application/json")] [],
      body := serializeBody JsBody.none } 1 0 u hu

/-- The readiness probe renders no bot message. -/
theorem checkServerReady_no_bot (t : Transport) (s : String) :
    countBotMsg s (checkServerReady t).1 = 0 :=
  apiFetchGo_no_bot_msg (t "/health")
    { url := API_BASE ++ "/health", method := "GET",
      headers := mergeHeaders [("Content-Type", "application/json")] [],
      body := serializeBody JsBody.none } s 1 0

/-- `countBotMsg` distributes over appended traces. -/
theorem countBotMsg_append (s : String) (l1 l2 : List Event) :
    countBotMsg s (l1 ++ l2) = countBotMsg s l1 + countBotMsg s l2 := by
  simp [countBotMsg, List.countP_append]

/-- Claim C3: for a non-preset message, the readiness probe is the first
and only network activity of the remote path; when the probe reports not
ready (including every transport failure, which `checkServerReady`
converts to `false`), the `/ask` endpoint is never contacted — every
contacted URL is the health endpoint — and exactly one warming-up notice
is rendered. -/
theorem readiness_gates_ask (msg input : String) (t : Transport)
    (hmsg : msg ≠ "") (hnp : presetLookup msg = Option.none)
    (hready : (checkServerReady t).2 = false) :
    sendMessage (some msg) input t =
      [Event.addMsg .user msg, Event.showLoading] ++ (checkServerReady t).1 ++
        [Event.addMsg .bot warmingNotice, Event.hideLoading, Event.hideLoading] ∧
    (fetchUrls (sendMessage (some msg) input t)).all
      (fun u => u == API_BASE ++ "/health") = true ∧
    countBotMsg warmingNotice (sendMessage (some msg) input t) = 1 := by
  have h1 : sendMessage (some msg) input t = sendCore msg false t :=
    sendMessage_some msg input t hmsg
  have h2 : sendCore msg false t = remoteSend msg false t := by
    simp [sendCore, hmsg, hnp]
  have h3 : remoteSend msg false t =
      [Event.addMsg .user msg, Event.showLoading] ++ (checkServerReady t).1 ++
        [Event.addMsg .bot warmingNotice, Event.hideLoading, Event.hideLoading] := by
    simp [remoteSend, hready]
  have htr := h1.trans (h2.trans h3)
  refine ⟨htr, ?_, ?_⟩
  · rw [htr, List.all_eq_true]
    intro u hu
    simp only [fetchUrls, List.filterMap_append, List.mem_append] at hu
    rcases hu with (hl | hp) | hr
    · simp [List.filterMap] at hl
    · have := checkServerReady_urls t u (by simpa [fetchUrls] using hp)
      simp [this]
    · simp [List.filterMap] at hr
  · rw [htr, countBotMsg_append, countBotMsg_append, checkServerReady_no_bot]
    simp [countBotMsg, List.countP_cons]

/-- Witness for C3: a novel question over an always-failing transport. -/
theorem readiness_gates_ask_witness :
    sendMessage (some "some novel question") "" failBoom =
      [Event.addMsg .user "some novel question", Event.showLoading] ++
        (checkServerReady failBoom).1 ++
        [Event.addMsg .bot warmingNotice, Event.hideLoading, Event.hideLoading] ∧
    (fetchUrls (sendMessage (some "some novel question") "" failBoom)).all
      (fun u => u == API_BASE ++ "/health") = true ∧
    countBotMsg warmingNotice (sendMessage (some "some novel question") "" failBoom) = 1 :=
  readiness_gates_ask "some novel question" "" failBoom (by decide) rfl rfl

/-! ## Claim C6 -/

/-- Claim C6 counterexample: dispatching an empty-bodied 200 response
with JSON content-type succeeds, its `json()` yields the empty object,
yet parsing the string that `text()` returns fails — so `json()` is not
equal to parsing `text()`'s output, against the claim. -/
theorem wrapper_json_text_cex :
    (apiFetch okEmptyJson "/ask" defaultFetchOptions 1).2 = .ok emptyJsonResp ∧
    emptyJsonResp.json = some (Json.obj []) ∧
    jsonParse emptyJsonResp.text = Option.none ∧
    emptyJsonResp.json ≠ jsonParse emptyJsonResp.text := by
  refine ⟨rfl, rfl, rfl, fun h => ?_⟩
  have h2 : (some (Json.obj []) : Option Json) = Option.none :=
    calc (some (Json.obj []) : Option Json) = emptyJsonResp.json := rfl
    _ = jsonParse emptyJsonResp.text := h
    _ = Option.none := rfl
  exact Option.noConfusion h2

/-- Claim C6 (amended): for every successful dispatch, `text()` and
`json()` are pure accessors over the one buffered body read — callable
in any order and repeatedly, never touching the transport again.  With a
non-JSON content-type `json()` never throws; with a JSON content-type
and a nonempty buffered body `json()` equals parsing the string `text()`
returns; an empty buffered body parses as the empty object instead. -/
theorem wrapper_single_buffer (t : Transport) (path : String)
    (opts : FetchOptions) (rt : Nat) (tr : List Event) (w : ApiResponse)
    (h : apiFetch t path opts rt = (tr, .ok w)) :
    (strIncludes w.contentType "application/json" = false →
      w.json = some (Json.obj [("raw", Json.str w.text)])) ∧
    (strIncludes w.contentType "application/json" = true → w.text ≠ "" →
      w.json = jsonParse w.text) ∧
    (strIncludes w.contentType "application/json" = true → w.text = "" →
      w.json = some (Json.obj [])) := by
  refine ⟨?_, ?_, ?_⟩
  · intro hct
    simp [ApiResponse.json, ApiResponse.text, hct]
  · intro hct hne
    have hne2 : w.bodyText ≠ "" := hne
    simp [ApiResponse.json, ApiResponse.text, hct, hne2]
  · intro hct he
    have he2 : w.bodyText = "" := he
    simp [ApiResponse.json, ApiResponse.text, hct, he2, jsonParse_emptyObject]

/-- Witness for C6 (amended): a nonempty JSON response, where `json()`
equals parsing `text()`'s output. -/
theorem wrapper_single_buffer_witness :
    jsonRespA.json = jsonParse jsonRespA.text :=
  (wrapper_single_buffer okJsonA "/ask" defaultFetchOptions 1 _ jsonRespA rfl).2.1
    rfl (by decide)

/-! ## Claim C7 -/

/-- Claim C7 counterexample: with an unserializable non-string body the
call does not fail fast — the request is transmitted, carrying the still
unserialized body — and the dispatch even succeeds. -/
theorem body_failfast_cex :
    sentBodies (apiFetch okJson2 "/ask"
      { method := "POST", headers := [], body := JsBody.obj false "circular" } 1).1 =
      [JsBody.obj false "circular"] ∧
    countFetch (apiFetch okJson2 "/ask"
      { method := "POST", headers := [], body := JsBody.obj false "circular" } 1).1 = 1 ∧
    (apiFetch okJson2 "/ask"
      { method := "POST", headers := [], body := JsBody.obj false "circular" } 1).2 =
      .ok { status := 200, contentType := "application/json", bodyText := "\x7b\x7d" } :=
  ⟨rfl, rfl, rfl⟩

/-- Claim C7 (amended): a serializable non-string body is serialized to
a string exactly once before transmission — every transmitted body is
the single `JSON.stringify` image; an unserializable body does not abort
the call: the serialization error is swallowed and the request is
transmitted (at least one call) with the body left unserialized. -/
theorem body_serialized_once (t : Transport) (path : String)
    (opts : FetchOptions) (rt : Nat) (ser : Bool) (p : String)
    (hb : opts.body = JsBody.obj ser p) :
    (sentBodies (apiFetch t path opts rt).1).all
      (fun b => b == serializeBody (JsBody.obj ser p)) = true ∧
    1 ≤ countFetch (apiFetch t path opts rt).1 ∧
    serializeBody (JsBody.obj true p) = JsBody.str p ∧
    serializeBody (JsBody.obj false p) = JsBody.obj false p := by
  unfold apiFetch
  refine ⟨?_, apiFetchGo_pos _ _ rt 0, rfl, rfl⟩
  rw [List.all_eq_true]
  intro b hbmem
  have hb2 := apiFetchGo_bodies _ _ rt 0 b hbmem
  rw [hb2, hb]
  simp

/-- Witness for C7 (amended) at a serializable POST body. -/
theorem body_serialized_once_witness :
    (sentBodies (apiFetch okJson2 "/ask"
      { method := "POST", headers := [], body := JsBody.obj true "payload1" } 1).1).all
      (fun b => b == serializeBody (JsBody.obj true "payload1")) = true ∧
    1 ≤ countFetch (apiFetch okJson2 "/ask"
      { method := "POST", headers := [], body := JsBody.obj true "payload1" } 1).1 ∧
    serializeBody (JsBody.obj true "payload1") = JsBody.str "payload1" ∧
    serializeBody (JsBody.obj false "payload1") = JsBody.obj false "payload1" :=
  body_serialized_once okJson2 "/ask"
    { method := "POST", headers := [], body := JsBody.obj true "payload1" } 1
    true "payload1" rfl

/-! ## Claim C10 -/

/-- Claim C10: for a successful dispatch, `json()` on a content-type not
containing `application/json` does not throw — it returns an object with
the raw body text under `raw` — and on a JSON content-type with an empty
body it returns the empty object rather than failing to parse. -/
theorem json_nonjson_and_empty (t : Transport) (path : String)
    (opts : FetchOptions) (rt : Nat) (tr : List Event) (w : ApiResponse)
    (h : apiFetch t path opts rt = (tr, .ok w)) :
    (strIncludes w.contentType "application/json" = false →
      w.json = some (Json.obj [("raw", Json.str w.bodyText)])) ∧
    (strIncludes w.contentType "application/json" = true → w.bodyText = "" →
      w.json = some (Json.obj [])) := by
  refine ⟨?_, ?_⟩
  · intro hct
    simp [ApiResponse.json, hct]
  · intro hct he
    simp [ApiResponse.json, hct, he, jsonParse_emptyObject]

/-- Witness for C10 at a plain-text response. -/
theorem json_nonjson_and_empty_witness :
    plainResp.json = some (Json.obj [("raw", Json.str "hello")]) :=
  (json_nonjson_and_empty okPlainT "/ask" defaultFetchOptions 1 _ plainResp rfl).1
    (by decide)

/-! ## Claim C4 -/

/-- A request fixture: GET of the health path. -/
def getHealthReq : RelayReq :=
  { method := "GET", queryPath := .arr ["health"],
    contentType := some "application/json",
    authorization := Option.none, body := JsBody.none }

/-- A request fixture: OPTIONS preflight. -/
def optionsReq : RelayReq :=
  { method := "OPTIONS", queryPath := .arr ["ask"],
    contentType := Option.none, authorization := Option.none,
    body := JsBody.none }

/-- A backend that throws during every forwarding attempt. -/
def throwingBackend : Backend := fun _ _ => .throws "ECONNREFUSED"

/-- The fixed shape of the relay's `catch` response. -/
theorem catchResult_spec (m : String) (n : Nat) :
    (catchResult m n).status = 500 ∧
    (catchResult m n).headers.lookup "Access-Control-Allow-Origin" = some "*" ∧
    (catchResult m n).body.errorField = some (Json.str "Proxy error") ∧
    isStrValue (catchResult m n).body.detailsField = true :=
  ⟨rfl, rfl, rfl, rfl⟩

/-- Claim C4: if an exception is thrown while the relay forwards to the
backend, the relay responds 500 with a JSON envelope holding an `error`
field and a diagnostic `details` string, and the
`Access-Control-Allow-Origin` header is set on that error response. -/
theorem relay_error_envelope (req : RelayReq) (backend : Backend) (m : String)
    (hm : req.method ≠ "OPTIONS")
    (hb : ∀ u o, backend u o = .throws m) :
    (handler req backend).status = 500 ∧
    (handler req backend).headers.lookup "Access-Control-Allow-Origin" = some "*" ∧
    (handler req backend).body.errorField = some (Json.str "Proxy error") ∧
    isStrValue (handler req backend).body.detailsField = true := by
  match hrb : relayBodyOf req with
  | .error m2 =>
    have hh : handler req backend = catchResult m2 0 := by
      simp [handler, hm, hrb]
    rw [hh]
    exact catchResult_spec m2 0
  | .ok ob =>
    have hh : handler req backend = catchResult m 1 := by
      simp [handler, hm, hrb, hb]
    rw [hh]
    exact catchResult_spec m 1

/-- Witness for C4: a GET forwarded to a throwing backend. -/
theorem relay_error_envelope_witness :
    (handler getHealthReq throwingBackend).status = 500 ∧
    (handler getHealthReq throwingBackend).headers.lookup
      "Access-Control-Allow-Origin" = some "*" ∧
    (handler getHealthReq throwingBackend).body.errorField =
      some (Json.str "Proxy error") ∧
    isStrValue (handler getHealthReq throwingBackend).body.detailsField = true :=
  relay_error_envelope getHealthReq throwingBackend "ECONNREFUSED"
    (by decide) (fun _ _ => rfl)

/-! ## Claim C5 -/

/-- Claim C5: an OPTIONS request, regardless of path, is answered
immediately with status 200 carrying the permitted-origin,
permitted-method and permitted-header declarations, with an empty body
and no backend call. -/
theorem relay_preflight (req : RelayReq) (backend : Backend)
    (h : req.method = "OPTIONS") :
    (handler req backend).status = 200 ∧
    (handler req backend).headers =
      [("Access-Control-Allow-Origin", "*"),
       ("Access-Control-Allow-Methods", "GET, POST, OPTIONS"),
       ("Access-Control-Allow-Headers", "Content-Type")] ∧
    (handler req backend).backendCalls = 0 := by
  refine ⟨?_, ?_, ?_⟩ <;> simp [handler, h]

/-- Witness for C5: an OPTIONS preflight against a throwing backend. -/
theorem relay_preflight_witness :
    (handler optionsReq throwingBackend).status = 200 ∧
    (handler optionsReq throwingBackend).headers =
      [("Access-Control-Allow-Origin", "*"),
       ("Access-Control-Allow-Methods", "GET, POST, OPTIONS"),
       ("Access-Control-Allow-Headers", "Content-Type")] ∧
    (handler optionsReq throwingBackend).backendCalls = 0 :=
  relay_preflight optionsReq throwingBackend rfl

end KazBot
